import Mathlib

/-!
Verification development for the `langsmith-cli` repository.

The definitions below are a shallow embedding of the Python sources under
`src/src/langsmith_cli/` (mainly `commands/runs.py`, `commands/projects.py`,
`utils.py` and `main.py`).  Pure Python functions become Lean functions;
fallible code returns `Except`; the ambient clock (`datetime.now`) is passed
explicitly as a parameter; Python's `re` based format checks are embedded as
decidable string predicates implementing the same regular languages.
-/

namespace LangsmithCli

/-! ## Python string truthiness and digit helpers -/

/-- Python truthiness of an optional string flag: `None` and `""` are falsy. -/
def truthy : Option String → Bool
  | none => false
  | some s => !(s == "")

/-- Numeric value of an ASCII digit character. -/
def charVal (c : Char) : Nat := c.toNat - 48

/-- Value of a list of ASCII digit characters read in base 10 (Python `int`). -/
def digitsToNat (cs : List Char) : Nat :=
  cs.foldl (fun n c => 10 * n + charVal c) 0

/-- Replacement of every non-overlapping occurrence of `pat` (left to right)
by `rep`, on character lists; the fuel argument (instantiated with the input
length) keeps the recursion structural. -/
def replaceListAux (pat rep : List Char) : Nat → List Char → List Char
  | 0, l => l
  | _ + 1, [] => []
  | fuel + 1, c :: cs =>
    if pat.isPrefixOf (c :: cs) then
      rep ++ replaceListAux pat rep fuel ((c :: cs).drop pat.length)
    else c :: replaceListAux pat rep fuel cs

/-- Model of Python `s.replace(pat, rep)` for non-empty patterns (the source
only uses the single-character patterns `"Z"` and `"*"`; the empty-pattern
case of `str.replace` is not needed and leaves the string unchanged here). -/
def pyReplace (s pat rep : String) : String :=
  if pat.isEmpty then s
  else String.mk (replaceListAux pat.toList rep.toList s.toList.length s.toList)

/-! ## Duration and relative-time format checks (`runs.py` lines 22-57)

`parse_duration_to_seconds` validates against the regular expression
`^\d+(\.\d+)?(s|ms|m|h|d)$` and returns the string unchanged;
`parse_relative_time` matches `^(\d+)(m|h|d)$` and subtracts the
corresponding `timedelta` from `datetime.now(timezone.utc)`.
We model `\d` as the ASCII digits. -/

/-- The unit suffix alternatives `(s|ms|m|h|d)` of the duration regex,
checked against the whole remaining input (the regex is anchored by `$`). -/
def durationUnitOk (cs : List Char) : Bool :=
  let u := String.mk cs
  u == "s" || u == "ms" || u == "m" || u == "h" || u == "d"

/-- Whether a string matches `^\d+(\.\d+)?(s|ms|m|h|d)$` (`runs.py` line 28). -/
def matchesDurationFormat (s : String) : Bool :=
  let (d1, rest) := s.toList.span Char.isDigit
  if d1.isEmpty then false
  else
    match rest with
    | '.' :: rest2 =>
      let (d2, rest3) := rest2.span Char.isDigit
      if d2.isEmpty then false else durationUnitOk rest3
    | _ => durationUnitOk rest

/-- The `click.BadParameter` message raised for a malformed duration
(`runs.py` lines 29-31). -/
def durationFormatError (s : String) : String :=
  "Invalid duration format: " ++ s ++
    ". Use format like '2s', '500ms', '1.5s', '5m', '2h', '7d'"

/-- Embedding of `parse_duration_to_seconds` (`runs.py` lines 22-32):
validate the format and return the string as-is, else raise `BadParameter`. -/
def parse_duration_to_seconds (s : String) : Except String String :=
  if matchesDurationFormat s then .ok s else .error (durationFormatError s)

/-- Match of `^(\d+)(m|h|d)$` (`runs.py` line 40): the integer value
and the unit character. -/
def relTimeMatch (s : String) : Option (Nat × Char) :=
  let (d, rest) := s.toList.span Char.isDigit
  if d.isEmpty then none
  else
    match rest with
    | [u] => if u == 'm' || u == 'h' || u == 'd' then some (digitsToNat d, u) else none
    | _ => none

/-- The `click.BadParameter` message raised for a malformed relative time
(`runs.py` lines 42-44). -/
def timeFormatError (s : String) : String :=
  "Invalid time format: " ++ s ++ ". Use format like '30m', '24h', '7d'"

/-! ## A model of Python `datetime.datetime`

Fields as in CPython; `tzOffsetSeconds = none` models a naive datetime,
`some o` an aware one with a fixed UTC offset of `o` seconds. -/

/-- Model of a Python `datetime.datetime` value. -/
structure PyDateTime where
  year : Int
  month : Nat
  day : Nat
  hour : Nat := 0
  minute : Nat := 0
  second : Nat := 0
  microsecond : Nat := 0
  tzOffsetSeconds : Option Int := none
deriving Repr, DecidableEq

/-- Proleptic-Gregorian leap-year test (as in Python `calendar.isleap`). -/
def isLeapYear (y : Int) : Bool :=
  y % 4 == 0 && (y % 100 != 0 || y % 400 == 0)

/-- Number of days in a month of the proleptic Gregorian calendar. -/
def daysInMonth (y : Int) (m : Nat) : Nat :=
  if m == 2 then (if isLeapYear y then 29 else 28)
  else if m == 4 || m == 6 || m == 9 || m == 11 then 30
  else 31

/-- Days since 1970-01-01 of a civil date (Howard Hinnant's `days_from_civil`,
the arithmetic CPython's `datetime` agrees with on the proleptic Gregorian
calendar). -/
def daysFromCivil (y : Int) (m d : Nat) : Int :=
  let y' : Int := if m ≤ 2 then y - 1 else y
  let era : Int := Int.ediv y' 400
  let yoe : Nat := (y' - era * 400).toNat
  let mp : Nat := if m > 2 then m - 3 else m + 9
  let doy : Nat := (153 * mp + 2) / 5 + d - 1
  let doe : Nat := yoe * 365 + yoe / 4 - yoe / 100 + doy
  era * 146097 + (doe : Int) - 719468

/-- Civil date from days since 1970-01-01 (Hinnant's `civil_from_days`). -/
def civilFromDays (z : Int) : Int × Nat × Nat :=
  let z' : Int := z + 719468
  let era : Int := Int.ediv z' 146097
  let doe : Nat := (z' - era * 146097).toNat
  let yoe : Nat := (doe - doe / 1460 + doe / 36524 - doe / 146096) / 365
  let y : Int := (yoe : Int) + era * 400
  let doy : Nat := doe - (365 * yoe + yoe / 4 - yoe / 100)
  let mp : Nat := (5 * doy + 2) / 153
  let d : Nat := doy - (153 * mp + 2) / 5 + 1
  let m : Nat := if mp < 10 then mp + 3 else mp - 9
  (if m ≤ 2 then y + 1 else y, m, d)

/-- Subtraction of a whole number of minutes from a datetime
(Python `dt - timedelta(minutes=k)`; seconds, microseconds and the
timezone are unchanged). -/
def subMinutes (dt : PyDateTime) (k : Nat) : PyDateTime :=
  let total : Int :=
    daysFromCivil dt.year dt.month dt.day * 1440 + dt.hour * 60 + dt.minute - k
  let days : Int := Int.ediv total 1440
  let rem : Nat := (Int.emod total 1440).toNat
  let c := civilFromDays days
  { dt with year := c.1, month := c.2.1, day := c.2.2,
            hour := rem / 60, minute := rem % 60 }

/-- Python `dt.replace(hour=0, minute=0, second=0, microsecond=0)`
(`runs.py` lines 197-199). -/
def todayStart (dt : PyDateTime) : PyDateTime :=
  { dt with hour := 0, minute := 0, second := 0, microsecond := 0 }

/-- Python `datetime.min` (year 1, month 1, day 1, naive). -/
def pyDatetimeMin : PyDateTime := { year := 1, month := 1, day := 1 }

/-- Microseconds since the epoch; datetime comparison on naive values is
field-lexicographic, which agrees with this epoch ordering. -/
def epochMicros (dt : PyDateTime) : Int :=
  (daysFromCivil dt.year dt.month dt.day * 86400
     + dt.hour * 3600 + dt.minute * 60 + dt.second) * 1000000 + dt.microsecond

/-- Decimal rendering of a natural number left-padded with zeros to width `w`. -/
def padNat (w : Nat) (n : Nat) : String :=
  let s := toString n
  String.mk (List.replicate (w - s.length) '0') ++ s

/-- Rendering of a fixed UTC offset as Python's `isoformat` renders it:
`±HH:MM`, with `:SS` appended only when the offset has seconds. -/
def tzRender (o : Int) : String :=
  let sign := if o < 0 then "-" else "+"
  let a := o.natAbs
  sign ++ padNat 2 (a / 3600) ++ ":" ++ padNat 2 ((a % 3600) / 60) ++
    (if a % 60 != 0 then ":" ++ padNat 2 (a % 60) else "")

/-- Python `datetime.isoformat()`: `YYYY-MM-DDTHH:MM:SS[.ffffff][±HH:MM]`,
the fraction printed only when the microsecond field is non-zero. -/
def PyDateTime.isoformat (dt : PyDateTime) : String :=
  padNat 4 dt.year.toNat ++ "-" ++ padNat 2 dt.month ++ "-" ++ padNat 2 dt.day
    ++ "T" ++ padNat 2 dt.hour ++ ":" ++ padNat 2 dt.minute ++ ":" ++ padNat 2 dt.second
    ++ (if dt.microsecond != 0 then "." ++ padNat 6 dt.microsecond else "")
    ++ (match dt.tzOffsetSeconds with
        | none => ""
        | some o => tzRender o)

/-! ## A model of `datetime.fromisoformat` (CPython 3.7-3.10 grammar)

The source (`runs.py` line 216) feeds `since.replace("Z", "+00:00")` to
`datetime.fromisoformat`, targeting the pre-3.11 grammar:
`YYYY-MM-DD` optionally followed by a single separator character and
`HH[:MM[:SS[.fff[fff]]]][±HH:MM[:SS]]`.  Field ranges are validated as the
`datetime` constructor does.  (Fractional UTC offsets, which CPython accepts
when the fraction is syntactically present, are modelled only when zero.) -/

/-- Parse exactly two ASCII digits. -/
def parse2Digits : List Char → Option (Nat × List Char)
  | a :: b :: rest =>
    if a.isDigit && b.isDigit then some (charVal a * 10 + charVal b, rest) else none
  | _ => none

/-- Parse exactly four ASCII digits. -/
def parse4Digits : List Char → Option (Nat × List Char)
  | a :: b :: c :: d :: rest =>
    if a.isDigit && b.isDigit && c.isDigit && d.isDigit then
      some (((charVal a * 10 + charVal b) * 10 + charVal c) * 10 + charVal d, rest)
    else none
  | _ => none

/-- Parse the date prefix `YYYY-MM-DD`, validating ranges as `datetime.date`
does, returning the remainder of the input. -/
def parseIsoDate (cs : List Char) : Option (Int × Nat × Nat × List Char) := do
  let (y, r1) ← parse4Digits cs
  match r1 with
  | '-' :: r2 => do
    let (mo, r3) ← parse2Digits r2
    match r3 with
    | '-' :: r4 => do
      let (da, r5) ← parse2Digits r4
      if 1 ≤ y && 1 ≤ mo && mo ≤ 12 && 1 ≤ da && da ≤ daysInMonth y mo then
        some ((y : Int), mo, da, r5)
      else none
    | _ => none
  | _ => none

/-- Parse `HH[:MM[:SS[.fff or .ffffff]]]`, consuming the whole input
(CPython `_parse_hh_mm_ss_ff`). -/
def parseHMSF (cs : List Char) : Option (Nat × Nat × Nat × Nat) := do
  let (h, r1) ← parse2Digits cs
  match r1 with
  | [] => some (h, 0, 0, 0)
  | ':' :: r2 => do
    let (mi, r3) ← parse2Digits r2
    match r3 with
    | [] => some (h, mi, 0, 0)
    | ':' :: r4 => do
      let (se, r5) ← parse2Digits r4
      match r5 with
      | [] => some (h, mi, se, 0)
      | '.' :: fr =>
        if fr.all Char.isDigit && (fr.length == 3 || fr.length == 6) then
          some (h, mi, se, if fr.length == 3 then digitsToNat fr * 1000 else digitsToNat fr)
        else none
      | _ => none
    | _ => none
  | _ => none

/-- Split a time string at the first `+` or `-` (the UTC-offset sign);
the returned flag is true for a negative offset. -/
def splitAtSign : List Char → List Char × Option (Bool × List Char)
  | [] => ([], none)
  | c :: rest =>
    if c == '+' || c == '-' then ([], some (c == '-', rest))
    else
      let (a, b) := splitAtSign rest
      (c :: a, b)

/-- Parse the time-and-offset part of an isoformat string
(CPython `_parse_isoformat_time`): hour/minute/second ranges as the `time`
constructor enforces, offset substring of length 5, 8 or 15, and a total
offset strictly below 24 hours as `timezone` enforces. -/
def parseIsoTime (cs : List Char) : Option (Nat × Nat × Nat × Nat × Option Int) := do
  if cs.isEmpty then none
  else
    let (tpart, tz) := splitAtSign cs
    let (h, mi, se, f) ← parseHMSF tpart
    if h ≤ 23 && mi ≤ 59 && se ≤ 59 then
      match tz with
      | none => some (h, mi, se, f, none)
      | some (neg, tzcs) =>
        if tzcs.length == 5 || tzcs.length == 8 || tzcs.length == 15 then do
          let (th, tm, ts, tf) ← parseHMSF tzcs
          if tf == 0 then
            let off : Int := th * 3600 + tm * 60 + ts
            if off < 86400 then some (h, mi, se, f, some (if neg then -off else off))
            else none
          else none
        else none
    else none

/-- Model of `datetime.fromisoformat` on the CPython 3.7-3.10 grammar:
a 10-character date, optionally followed by one separator character of any
kind and a time string. -/
def pyFromIsoformat (s : String) : Except String PyDateTime :=
  match parseIsoDate s.toList with
  | none => .error ("Invalid isoformat string: " ++ s)
  | some (y, mo, da, rest) =>
    match rest with
    | [] => .ok { year := y, month := mo, day := da }
    | _sep :: tcs =>
      match parseIsoTime tcs with
      | none => .error ("Invalid isoformat string: " ++ s)
      | some (h, mi, se, f, off) =>
        .ok { year := y, month := mo, day := da, hour := h, minute := mi,
              second := se, microsecond := f, tzOffsetSeconds := off }

/-- Embedding of `parse_relative_time` (`runs.py` lines 35-57): on a match of
`^(\d+)(m|h|d)$` return `now - timedelta(...)`, else raise `BadParameter`. -/
def parse_relative_time (now : PyDateTime) (s : String) : Except String PyDateTime :=
  match relTimeMatch s with
  | none => .error (timeFormatError s)
  | some (v, u) =>
    let minutes := if u == 'm' then v else if u == 'h' then v * 60 else v * 1440
    .ok (subMinutes now minutes)

/-! ## The `runs list` command front end (`runs.py` lines 60-259)

The CLI flag record mirrors the `click` options of `list_runs`; defaults are
the `click` defaults.  The ambient clock is the explicit `now` parameter. -/

/-- The flags of `runs list` (`runs.py` lines 60-146). -/
structure ListRunsArgs where
  project : String := "default"
  limit : Nat := 20
  status : Option String := none
  filter_ : Option String := none
  traceId : Option String := none
  runType : Option String := none
  isRoot : Option Bool := none
  traceFilter : Option String := none
  treeFilter : Option String := none
  orderBy : String := "-start_time"
  referenceExampleId : Option String := none
  tag : List String := []
  namePattern : Option String := none
  nameRegex : Option String := none
  model : Option String := none
  failed : Bool := false
  succeeded : Bool := false
  slow : Bool := false
  recent : Bool := false
  today : Bool := false
  minLatency : Option String := none
  maxLatency : Option String := none
  since : Option String := none
  last : Option String := none
  sortBy : Option String := none
deriving Repr, DecidableEq

/-- The `--since` error message (`runs.py` lines 222-224). -/
def sinceFormatError (s : String) : String :=
  "Invalid --since format: " ++ s ++
    ". Use ISO format (2024-01-14T10:00:00Z) or relative time (24h, 7d)"

/-- Embedding of the `--since` parsing cascade (`runs.py` lines 212-224):
try `datetime.fromisoformat(since.replace("Z", "+00:00"))`, on failure try
`parse_relative_time(since)`, on double failure raise `BadParameter`. -/
def sinceTimestamp (now : PyDateTime) (s : String) : Except String PyDateTime :=
  match pyFromIsoformat (pyReplace s "Z" "+00:00") with
  | .ok dt => .ok dt
  | .error _ =>
    match parse_relative_time now s with
    | .ok dt => .ok dt
    | .error _ => .error (sinceFormatError s)

/-- The fallible suffix of the FQL filter accumulation of `list_runs`
(`runs.py` lines 202-229), continuing from the predicates `fs` accumulated so
far: `--min-latency`, `--max-latency`, `--since`, `--last`, each appended in
source order, each able to raise `BadParameter`. -/
def buildFqlFiltersTail (now : PyDateTime) (a : ListRunsArgs) (fs : List String) :
    Except String (List String) := do
  let fs ←
    if truthy a.minLatency then do
      let d ← parse_duration_to_seconds (a.minLatency.getD "")
      pure (fs ++ ["gt(latency, \"" ++ d ++ "\")"])
    else pure fs
  let fs ←
    if truthy a.maxLatency then do
      let d ← parse_duration_to_seconds (a.maxLatency.getD "")
      pure (fs ++ ["lt(latency, \"" ++ d ++ "\")"])
    else pure fs
  let fs ←
    if truthy a.since then do
      let ts ← sinceTimestamp now (a.since.getD "")
      pure (fs ++ ["gt(start_time, \"" ++ ts.isoformat ++ "\")"])
    else pure fs
  let fs ←
    if truthy a.last then do
      let ts ← parse_relative_time now (a.last.getD "")
      pure (fs ++ ["gt(start_time, \"" ++ ts.isoformat ++ "\")"])
    else pure fs
  pure fs

/-- The infallible prefix of the FQL filter accumulation of `list_runs`
(`runs.py` lines 160-200), appending predicates in source order:
raw `--filter`, tags, name pattern, model, `--slow`, `--recent`, `--today`. -/
def buildFqlBase (now : PyDateTime) (a : ListRunsArgs) : List String :=
  let fs : List String := []
  let fs := if truthy a.filter_ then fs ++ [a.filter_.getD ""] else fs
  let fs := fs ++ a.tag.map (fun t => "has(tags, \"" ++ t ++ "\")")
  let fs :=
    if truthy a.namePattern then
      let searchTerm := pyReplace (a.namePattern.getD "") "*" ""
      if searchTerm != "" then fs ++ ["search(\"" ++ searchTerm ++ "\")"] else fs
    else fs
  let fs := if truthy a.model then fs ++ ["search(\"" ++ a.model.getD "" ++ "\")"] else fs
  let fs := if a.slow then fs ++ ["gt(latency, \"5s\")"] else fs
  let fs :=
    if a.recent then
      fs ++ ["gt(start_time, \"" ++ (subMinutes now 60).isoformat ++ "\")"]
    else fs
  let fs :=
    if a.today then
      fs ++ ["gt(start_time, \"" ++ (todayStart now).isoformat ++ "\")"]
    else fs
  fs

/-- Embedding of the whole FQL filter accumulation of `list_runs`
(`runs.py` lines 160-229): the infallible prefix followed by the fallible
latency and time steps. -/
def buildFqlFilters (now : PyDateTime) (a : ListRunsArgs) : Except String (List String) :=
  buildFqlFiltersTail now a (buildFqlBase now a)

/-- Embedding of the filter combination step (`runs.py` lines 231-239):
no predicates gives no filter, one predicate is passed verbatim, two or more
are comma-joined inside `and(...)`. -/
def combineFilters : List String → Option String
  | [] => none
  | [f] => some f
  | fs => some ("and(" ++ String.intercalate ", " fs ++ ")")

/-! Per-group predicate lists, used to state the ordering contract of the
builder.  Each follows the same source lines as the corresponding step of
`buildFqlFilters`. -/

/-- Predicates contributed by the raw `--filter` expression (`runs.py` 163-164). -/
def rawFilters (a : ListRunsArgs) : List String :=
  if truthy a.filter_ then [a.filter_.getD ""] else []

/-- Predicates contributed by `--tag` flags, in insertion order (`runs.py` 167-169). -/
def tagFilters (a : ListRunsArgs) : List String :=
  a.tag.map (fun t => "has(tags, \"" ++ t ++ "\")")

/-- Predicate contributed by `--name-pattern` (`runs.py` 172-177). -/
def nameFilters (a : ListRunsArgs) : List String :=
  if truthy a.namePattern then
    let searchTerm := pyReplace (a.namePattern.getD "") "*" ""
    if searchTerm != "" then ["search(\"" ++ searchTerm ++ "\")"] else []
  else []

/-- Predicate contributed by `--model` (`runs.py` 180-182). -/
def modelFilters (a : ListRunsArgs) : List String :=
  if truthy a.model then ["search(\"" ++ a.model.getD "" ++ "\")"] else []

/-- Predicates contributed by the smart flags `--slow`, `--recent`, `--today`
(`runs.py` 185-200). -/
def smartFilters (now : PyDateTime) (a : ListRunsArgs) : List String :=
  (if a.slow then ["gt(latency, \"5s\")"] else [])
    ++ (if a.recent then ["gt(start_time, \"" ++ (subMinutes now 60).isoformat ++ "\")"] else [])
    ++ (if a.today then ["gt(start_time, \"" ++ (todayStart now).isoformat ++ "\")"] else [])

/-- Predicates contributed by `--min-latency` then `--max-latency`
(`runs.py` 203-209). -/
def latencyFilters (a : ListRunsArgs) : Except String (List String) := do
  let lo ←
    if truthy a.minLatency then
      (parse_duration_to_seconds (a.minLatency.getD "")).map
        (fun d => ["gt(latency, \"" ++ d ++ "\")"])
    else pure []
  let hi ←
    if truthy a.maxLatency then
      (parse_duration_to_seconds (a.maxLatency.getD "")).map
        (fun d => ["lt(latency, \"" ++ d ++ "\")"])
    else pure []
  pure (lo ++ hi)

/-- Predicates contributed by `--since` then `--last` (`runs.py` 212-229). -/
def timeFilters (now : PyDateTime) (a : ListRunsArgs) : Except String (List String) := do
  let sinceFs ←
    if truthy a.since then
      (sinceTimestamp now (a.since.getD "")).map
        (fun ts => ["gt(start_time, \"" ++ ts.isoformat ++ "\")"])
    else pure []
  let lastFs ←
    if truthy a.last then
      (parse_relative_time now (a.last.getD "")).map
        (fun ts => ["gt(start_time, \"" ++ ts.isoformat ++ "\")"])
    else pure []
  pure (sinceFs ++ lastFs)

/-- The keyword arguments of the `client.list_runs(...)` backend call
(`runs.py` lines 247-259); every field here is a kwarg the source passes. -/
structure BackendCall where
  project_name : String
  limit : Option Nat
  error : Option Bool
  filter : Option String
  trace_id : Option String
  run_type : Option String
  is_root : Option Bool
  trace_filter : Option String
  tree_filter : Option String
  order_by : Option String
  reference_example_id : Option String
deriving Repr, DecidableEq

/-- Embedding of the front half of `list_runs` (`runs.py` lines 147-259):
status reconciliation, filter compilation, over-fetch decision and the
backend call.  An `Except.error` result models a `BadParameter` raised
before `client.list_runs` is invoked. -/
def listRunsBackendCall (now : PyDateTime) (a : ListRunsArgs) : Except String BackendCall := do
  let errorFilter : Option Bool :=
    if a.status == some "error" || a.failed then some true
    else if a.status == some "success" || a.succeeded then some false
    else none
  let fqlFilters ← buildFqlFilters now a
  let combinedFilter := combineFilters fqlFilters
  let needsClientFiltering := truthy a.nameRegex
  let apiLimit : Option Nat := if needsClientFiltering then none else some a.limit
  pure
    { project_name := a.project
      limit := apiLimit
      error := errorFilter
      filter := combinedFilter
      trace_id := a.traceId
      run_type := a.runType
      is_root := a.isRoot
      trace_filter := a.traceFilter
      tree_filter := a.treeFilter
      order_by := some a.orderBy
      reference_example_id := a.referenceExampleId }

/-! ## Shared utilities (`utils.py`) -/

/-- Python `s.lstrip("-")`: strip every leading `-` (`utils.py` line 74). -/
def stripLeadingDashes (s : String) : String :=
  String.mk (s.toList.dropWhile (fun c => c == '-'))

/-- The warning printed for an unknown sort field (`utils.py` lines 77-80). -/
def unknownFieldWarning (sortField : String) (keys : List String) : String :=
  "[yellow]Warning: Unknown sort field '" ++ sortField ++ "'. Available: "
    ++ String.intercalate ", " keys ++ "[/yellow]"

/-- Python `sorted(items, key=key, reverse=reverse)`: a stable sort by key;
CPython implements `reverse=True` by reversing before and after sorting. -/
def pySortedBy {α κ : Type} (le : κ → κ → Bool) (key : α → κ) (reverse : Bool)
    (items : List α) : List α :=
  if reverse then
    (items.reverse.insertionSort (fun a b => le (key a) (key b))).reverse
  else
    items.insertionSort (fun a b => le (key a) (key b))

/-- Embedding of `sort_items` (`utils.py` lines 53-87): empty spec returns the
input; a leading `-` selects descending order; an unknown stripped field name
warns and returns the input; otherwise a stable sort by the mapped key.
The function is total: the source wraps `sorted` in `try/except` and returns
the input on any exception, so no call of it raises. -/
def sort_items {α κ : Type} (le : κ → κ → Bool) (items : List α) (sortBy : String)
    (sortKeyMap : List (String × (α → κ))) : List α × Option String :=
  if sortBy == "" then (items, none)
  else
    let reverse := sortBy.startsWith "-"
    let sortField := stripLeadingDashes sortBy
    match sortKeyMap.lookup sortField with
    | none => (items, some (unknownFieldWarning sortField (sortKeyMap.map Prod.fst)))
    | some key => (pySortedBy le key reverse items, none)

/-- Embedding of `apply_regex_filter` (`utils.py` lines 90-117).  The Python
regex engine is external; `search` is its oracle (`search p s` models
`re.compile(p).search(s) is not None`).  An item passes when its field value
is truthy (non-`None`, non-empty) and the pattern matches it. -/
def apply_regex_filter {α : Type} (search : String → String → Bool) (items : List α)
    (regexPattern : Option String) (fieldGetter : α → Option String) : List α :=
  if !truthy regexPattern then items
  else
    items.filter (fun it =>
      match fieldGetter it with
      | none => false
      | some s => s != "" && search (regexPattern.getD "") s)

/-- Modelled from the spec: `apply_client_side_limit` is imported by `runs.py`
from `langsmith_cli.utils` but its definition is not among the sources (only
the call site at `runs.py` line 281 is).  Per the spec's final-limiting rule it
truncates the client-side filtered and sorted list to the user-requested
display limit, needed exactly when the backend fetch was not limited. -/
def apply_client_side_limit {α : Type} (runs : List α) (limit : Nat)
    (needsClientFiltering : Bool) : List α :=
  if needsClientFiltering then runs.take limit else runs

/-- Embedding of `determine_output_format` (`utils.py` lines 153-168). -/
def determine_output_format (outputFormat : Option String) (jsonFlag : Bool) : String :=
  if truthy outputFormat then outputFormat.getD ""
  else if jsonFlag then "json" else "table"

/-! ## Run records and the `runs list` result pipeline (`runs.py` lines 261-324) -/

/-- Projection of a backend run used by the pipeline (name, status, latency in
seconds, start time); the latency float is modelled as a rational. -/
structure RunRecord where
  id : String
  name : Option String := none
  status : Option String := none
  latency : Option Rat := none
  startTime : Option PyDateTime := none
deriving Repr, DecidableEq

/-- Values produced by the `runs list` sort key functions: each map entry
yields keys of a single shape, so comparisons stay within one constructor
(Python would raise on a cross-shape comparison; that branch is dead). -/
inductive SortKey where
  | str (s : String)
  | num (q : Rat)
  | time (t : Int)
deriving Repr, DecidableEq

/-- Comparison on sort keys, within each shape. -/
def SortKey.le : SortKey → SortKey → Bool
  | .str a, .str b => a ≤ b
  | .num a, .num b => a ≤ b
  | .time a, .time b => a ≤ b
  | _, _ => false

/-- The `sort_key_map` of `list_runs` (`runs.py` lines 270-277): `name` maps
to the lowercased name or `""`, `status` to the status or `""`, `latency` to
the latency or `0`, `start_time` to the start time or `datetime.min`. -/
def runsSortKeyMap : List (String × (RunRecord → SortKey)) :=
  [("name", fun r => .str (r.name.getD "").toLower),
   ("status", fun r => .str (r.status.getD "")),
   ("latency", fun r => .num (r.latency.getD 0)),
   ("start_time", fun r => .time (epochMicros (r.startTime.getD pyDatetimeMin)))]

/-- Embedding of the post-fetch stages of `list_runs` (`runs.py` lines
261-281), in source order: client-side regex filtering, client-side sorting
(only when a sort spec is given and the global `--json` flag is off), then the
user's display limit. -/
def listRunsPostFetch (search : String → String → Bool) (a : ListRunsArgs)
    (jsonMode : Bool) (fetched : List RunRecord) : List RunRecord :=
  let runs := apply_regex_filter search fetched a.nameRegex (fun r => r.name)
  let runs :=
    if truthy a.sortBy && !jsonMode then
      (sort_items SortKey.le runs (a.sortBy.getD "") runsSortKeyMap).1
    else runs
  apply_client_side_limit runs a.limit (truthy a.nameRegex)

/-- Result of the table branch of `runs list` (`runs.py` lines 292-324):
either the distinct no-results indicator or a rendered table. -/
inductive RunsRender where
  | noResults (msg : String)
  | table (title : String) (rows : List (List String))
deriving Repr, DecidableEq

/-- The status cell with its colour markup (`runs.py` lines 306-318);
a missing status renders as Python string-interpolates `None`. -/
def statusCell (status : Option String) : String :=
  let s := match status with | none => "None" | some v => v
  let style := if s == "success" then "green" else if s == "error" then "red" else "yellow"
  "[" ++ style ++ "]" ++ s ++ "[/" ++ style ++ "]"

/-- The latency cell (`runs.py` line 315): `f"{latency:.2f}s"` or `-`.
The two-decimal float formatting is modelled by rounding the rational to
hundredths. -/
def latencyCell : Option Rat → String
  | none => "-"
  | some q =>
    let cents : Int := round (q * 100)
    toString (Int.ediv cents 100) ++ "." ++ padNat 2 (Int.emod cents 100).toNat ++ "s"

/-- One table row of `runs list` (`runs.py` lines 301-319). -/
def runsTableRow (r : RunRecord) : List String :=
  [r.id, r.name.getD "Unknown", statusCell r.status, latencyCell r.latency]

/-- The table branch of `runs list` (`runs.py` lines 292-324): zero rows give
the `No runs found.` indicator instead of a table. -/
def renderRunsTable (project : String) (runs : List RunRecord) : RunsRender :=
  if runs.isEmpty then .noResults "No runs found."
  else .table ("Runs (" ++ project ++ ")") (runs.map runsTableRow)

/-! ## Structured output formats (`utils.py` lines 6-50)

A result row is an ordered association of field names to their
string-rendered values (the source serializes with `default=str`).  The
stdlib serializers `json.dumps`, `yaml.dump` and `csv` are modelled on this
row type; string escaping inside values is elided. -/

/-- A result row: ordered field names and string-rendered values. -/
abbrev Row : Type := List (String × String)

/-- A JSON string literal (escaping of exotic characters elided). -/
def jsonStringLit (s : String) : String := "\"" ++ s ++ "\""

/-- Model of `json.dumps` on one row. -/
def jsonDumpsRow (r : Row) : String :=
  "\x7b" ++ String.intercalate ", "
      (r.map (fun kv => jsonStringLit kv.1 ++ ": " ++ jsonStringLit kv.2)) ++ "\x7d"

/-- Model of `json.dumps` on a list of rows; the empty list renders as `[]`. -/
def jsonDumps (data : List Row) : String :=
  "[" ++ String.intercalate ", " (data.map jsonDumpsRow) ++ "]"

/-- Model of one block-style YAML item. -/
def yamlRow (r : Row) : String :=
  match r with
  | [] => "- \x7b\x7d\n"
  | kv :: rest =>
    "- " ++ kv.1 ++ ": " ++ kv.2 ++ "\n"
      ++ String.join (rest.map (fun kv2 => "  " ++ kv2.1 ++ ": " ++ kv2.2 ++ "\n"))

/-- Model of `yaml.dump(data, default_flow_style=False, sort_keys=False)`;
the empty list renders as the flow sequence `[]` followed by a newline. -/
def yamlDump (data : List Row) : String :=
  if data.isEmpty then "[]\n" else String.join (data.map yamlRow)

/-- Model of the `csv.DictWriter` output lines: a header from the first row's
field names, then one line per row (quoting elided). -/
def csvLines (data : List Row) : List String :=
  match data with
  | [] => []
  | r0 :: _ =>
    String.intercalate "," (r0.map Prod.fst)
      :: data.map (fun r => String.intercalate "," (r.map Prod.snd))

/-- Python `{k: v for k, v in item.items() if k in fields}` applied when the
`fields` argument is truthy (`utils.py` lines 34-35). -/
def filterFields (fields : Option (List String)) (data : List Row) : List Row :=
  match fields with
  | none => data
  | some [] => data
  | some fl => data.map (fun r => r.filter (fun kv => fl.contains kv.1))

/-- Embedding of `output_formatted_data` (`utils.py` lines 6-50).  The result
is the list of writes to the output stream: empty data writes nothing for
`csv`, the rendering of the empty collection for `yaml` and `json`; an
unsupported format raises `ValueError`. -/
def output_formatted_data (data : List Row) (formatType : String)
    (fields : Option (List String)) : Except String (List String) :=
  if data.isEmpty && formatType == "csv" then .ok []
  else if data.isEmpty && formatType == "yaml" then .ok [yamlDump []]
  else if data.isEmpty && formatType == "json" then .ok [jsonDumps []]
  else
    let data' := filterFields fields data
    if formatType == "json" then .ok [jsonDumps data']
    else if formatType == "csv" then .ok (csvLines data')
    else if formatType == "yaml" then .ok [yamlDump data']
    else .error ("Unsupported format: " ++ formatType)

/-! ## Error taxonomy and boundary (spec sections 4.3 and 7; `projects.py`) -/

/-- The backend SDK exception taxonomy consumed by the CLI (spec section 7):
authentication, permission, not-found and conflict classes plus a passthrough
bucket carrying the exception's kind name. -/
inductive BackendException where
  | authError (msg : String)
  | permissionError (msg : String)
  | notFoundError (msg : String)
  | conflictError (msg : String)
  | other (kind : String) (msg : String)
deriving Repr, DecidableEq

/-- A classified user-facing error (spec section 4.3). -/
structure ClassifiedError where
  kind : String
  message : String
  help : Option String := none
deriving Repr, DecidableEq

/-- Modelled from the spec: the error-classification table of section 4.3.
The global error boundary is not among the sources (`main.py` here carries no
wrapper; `tests/test_main.py` exercises it): first match wins, auth maps to
`AuthenticationError` with a re-authentication hint, permission to
`PermissionError`, not-found to `NotFoundError`, conflict to the non-fatal
`ConflictError`, and an unanticipated exception passes its kind name through. -/
def classifyException : BackendException → ClassifiedError
  | .authError m =>
    { kind := "AuthenticationError", message := m,
      help := some "Run 'langsmith-cli auth login' to re-authenticate." }
  | .permissionError m =>
    { kind := "PermissionError", message := m,
      help := some "Your API key may be invalid or expired. Run 'langsmith-cli auth login'." }
  | .notFoundError m => { kind := "NotFoundError", message := m }
  | .conflictError m => { kind := "ConflictError", message := m }
  | .other k m => { kind := k, message := m }

/-- Modelled from the spec: exit code fixed by the error kind; conflict is the
only kind with exit code 0. -/
def ClassifiedError.exitCode (e : ClassifiedError) : Nat :=
  if e.kind == "ConflictError" then 0 else 1

/-- Rendering of a classified error as the single machine-mode JSON object,
with the stable keys `error`, `message` and, when applicable, `help`. -/
def renderErrorJson (e : ClassifiedError) : String :=
  "\x7b\"error\": " ++ jsonStringLit e.kind ++ ", \"message\": " ++ jsonStringLit e.message
    ++ (match e.help with
        | none => ""
        | some h => ", \"help\": " ++ jsonStringLit h) ++ "\x7d"

/-- Modelled from the spec: the machine-mode error boundary around a listing
command (section 4.3).  On success the command's own writes go out with exit
code 0; on an exception the classifier's JSON object is the only content
written to the output channel and the process exits with the kind's code. -/
def runListingMachineMode (backend : Except BackendException (List String)) :
    Nat × List String :=
  match backend with
  | .ok lines => (0, lines)
  | .error e =>
    let c := classifyException e
    (c.exitCode, [renderErrorJson c])

/-! ## `projects create` (`projects.py` lines 117-139) -/

/-- Projection of a backend project used for display. -/
structure Project where
  id : String
  name : String
deriving Repr, DecidableEq

/-- One write of `projects create`: a human console message or a JSON data
object (the `model_dump` of the created project, content elided to name/id). -/
inductive POut where
  | human (s : String)
  | jsonData (s : String)
deriving Repr, DecidableEq

/-- Rendering of a created project in machine mode (`projects.py` 129-131). -/
def renderProjectJson (p : Project) : String :=
  "\x7b\"name\": " ++ jsonStringLit p.name ++ ", \"id\": " ++ jsonStringLit p.id ++ "\x7d"

/-- Embedding of `create_project` (`projects.py` lines 117-139): on success
echo the project (JSON in machine mode, console message otherwise); a
`LangSmithConflictError` is caught and replaced by the already-exists warning
with a normal return; every other exception propagates out of the command. -/
def create_project (jsonMode : Bool) (name : String)
    (backend : Except BackendException Project) : Except BackendException (Nat × List POut) :=
  match backend with
  | .ok p =>
    if jsonMode then .ok (0, [.jsonData (renderProjectJson p)])
    else .ok (0, [.human ("[green]Created project " ++ p.name ++ "[/green] (ID: " ++ p.id ++ ")")])
  | .error (.conflictError _) =>
    .ok (0, [.human ("[yellow]Project " ++ name ++ " already exists.[/yellow]")])
  | .error e => .error e

/-- Exit code of a command under the CLI framework: a normal return exits with
the command's code, an uncaught exception exits non-zero (code 1). -/
def cliExitCode : Except BackendException (Nat × List POut) → Nat
  | .ok r => r.1
  | .error _ => 1

/-- A fixed sample clock value used to evaluate the embedding at concrete
inputs. -/
def sampleNow : PyDateTime :=
  { year := 2024, month := 1, day := 14, hour := 12, minute := 30, second := 5,
    tzOffsetSeconds := some 0 }

/-! ## Helper lemmas shared by the claim theorems -/

/-- The infallible builder prefix is the ordered concatenation of the raw,
tag, name, model and smart-flag predicate groups. -/
theorem buildFqlBase_eq (now : PyDateTime) (a : ListRunsArgs) :
    buildFqlBase now a =
      rawFilters a ++ tagFilters a ++ nameFilters a ++ modelFilters a ++ smartFilters now a := by
  unfold buildFqlBase rawFilters tagFilters nameFilters modelFilters smartFilters
  cases truthy a.namePattern <;>
    by_cases hst : pyReplace (a.namePattern.getD "") "*" "" = "" <;>
    cases truthy a.model <;> cases a.slow <;> cases a.recent <;> cases a.today <;>
    simp [hst, List.append_assoc]

set_option maxHeartbeats 1000000 in
/-- The fallible builder suffix appends the latency group and then the time
group to the predicates accumulated so far, propagating their errors. -/
theorem buildFqlFiltersTail_eq (now : PyDateTime) (a : ListRunsArgs) (fs : List String) :
    buildFqlFiltersTail now a fs =
      (latencyFilters a).bind (fun lat =>
        (timeFilters now a).map (fun tim => fs ++ lat ++ tim)) := by
  unfold buildFqlFiltersTail latencyFilters timeFilters
  cases truthy a.minLatency <;> cases truthy a.maxLatency <;>
    cases truthy a.since <;> cases truthy a.last <;>
    cases hp1 : parse_duration_to_seconds (a.minLatency.getD "") <;>
    cases hp2 : parse_duration_to_seconds (a.maxLatency.getD "") <;>
    cases hp3 : sinceTimestamp now (a.since.getD "") <;>
    cases hp4 : parse_relative_time now (a.last.getD "") <;>
    simp [hp1, hp2, hp3, hp4, List.append_assoc, pure, Except.pure, Except.map,
      Except.bind, bind]

/-- The compiled predicate list is the ordered concatenation of the seven
predicate groups, in source order. -/
theorem buildFqlFilters_eq (now : PyDateTime) (a : ListRunsArgs) :
    buildFqlFilters now a =
      (latencyFilters a).bind (fun lat =>
        (timeFilters now a).map (fun tim =>
          rawFilters a ++ tagFilters a ++ nameFilters a ++ modelFilters a
            ++ smartFilters now a ++ lat ++ tim)) := by
  unfold buildFqlFilters
  rw [buildFqlFiltersTail_eq, buildFqlBase_eq]

/-- The backend call record produced for compiled predicates `fs`. -/
theorem listRunsBackendCall_eq (now : PyDateTime) (a : ListRunsArgs) (fs : List String)
    (h : buildFqlFilters now a = .ok fs) :
    listRunsBackendCall now a =
      .ok
        { project_name := a.project
          limit := if truthy a.nameRegex then none else some a.limit
          error :=
            if a.status == some "error" || a.failed then some true
            else if a.status == some "success" || a.succeeded then some false
            else none
          filter := combineFilters fs
          trace_id := a.traceId
          run_type := a.runType
          is_root := a.isRoot
          trace_filter := a.traceFilter
          tree_filter := a.treeFilter
          order_by := some a.orderBy
          reference_example_id := a.referenceExampleId } := by
  unfold listRunsBackendCall
  simp [h, bind, Except.bind, pure, Except.pure]

/-- A builder error surfaces unchanged as the command's error, before any
backend call record is produced. -/
theorem listRunsBackendCall_error (now : PyDateTime) (a : ListRunsArgs) (msg : String)
    (h : buildFqlFilters now a = .error msg) :
    listRunsBackendCall now a = .error msg := by
  unfold listRunsBackendCall
  simp [h, bind, Except.bind]

/-- Membership is preserved by the stable keyed sort. -/
theorem mem_pySortedBy {α κ : Type} (le : κ → κ → Bool) (key : α → κ) (rev : Bool)
    (items : List α) (x : α) : x ∈ pySortedBy le key rev items ↔ x ∈ items := by
  unfold pySortedBy
  split <;> simp [List.mem_insertionSort]

/-- Membership is preserved by `sort_items` in every branch. -/
theorem mem_sort_items_fst {α κ : Type} (le : κ → κ → Bool) (items : List α)
    (sortBy : String) (m : List (String × (α → κ))) (x : α) :
    x ∈ (sort_items le items sortBy m).1 ↔ x ∈ items := by
  unfold sort_items
  split
  · simp
  · cases hl : m.lookup (stripLeadingDashes sortBy) <;> simp [hl, mem_pySortedBy]

/-- Truthiness of a present, non-empty string flag. -/
theorem truthy_some_ne {s : String} (h : s ≠ "") : truthy (some s) = true := by
  simp [truthy, h]

/-- A truthy `--min-latency` value that fails the duration format check makes
the latency group fail with the duration error naming that value. -/
theorem latencyFilters_min_error (a : ListRunsArgs) (s : String)
    (hmin : a.minLatency = some s) (hne : s ≠ "")
    (hmf : matchesDurationFormat s = false) :
    latencyFilters a = .error (durationFormatError s) := by
  unfold latencyFilters
  simp [hmin, truthy_some_ne hne, parse_duration_to_seconds, hmf, bind, Except.bind,
    Except.map, pure, Except.pure]

/-- With `--min-latency` unset (or empty) or valid, a truthy malformed
`--max-latency` value makes the latency group fail with the duration error
naming that value. -/
theorem latencyFilters_max_error (a : ListRunsArgs) (s : String)
    (hmax : a.maxLatency = some s) (hne : s ≠ "")
    (hmf : matchesDurationFormat s = false)
    (hminOk : truthy a.minLatency = false
      ∨ ∃ t, a.minLatency = some t ∧ matchesDurationFormat t = true) :
    latencyFilters a = .error (durationFormatError s) := by
  unfold latencyFilters
  rcases hminOk with hmin | ⟨t, hmin, hok⟩
  · simp [hmin, hmax, truthy_some_ne hne, parse_duration_to_seconds, hmf, bind,
      Except.bind, Except.map, pure, Except.pure]
  · have htne : t ≠ "" := by
      intro h0
      subst h0
      exact absurd hok (by decide)
    simp [hmin, hmax, truthy_some_ne hne, truthy_some_ne htne,
      parse_duration_to_seconds, hok, hmf, bind, Except.bind, Except.map, pure,
      Except.pure]

/-- A builder error of the latency group aborts the whole command. -/
theorem listRunsBackendCall_latency_error (now : PyDateTime) (a : ListRunsArgs)
    (msg : String) (h : latencyFilters a = .error msg) :
    listRunsBackendCall now a = .error msg := by
  refine listRunsBackendCall_error now a msg ?_
  rw [buildFqlFilters_eq, h]
  rfl

end LangsmithCli

namespace LangsmithCli

/-! ## Claim theorems -/

/-- C1: the claim says the backend's order-by parameter is never forwarded to
`client.list_runs`, but the source (`runs.py` line 257) always passes
`order_by=order_by`: whenever the backend call is made, its `order_by` kwarg
is present and carries the `--order-by` flag value (default `-start_time`).
This contradicts the repository's own tests
(`tests/test_runs_list.py` lines 181-190, `tests/test_runs_search.py` lines
52-60), which assert that `order_by` must not appear among the call's kwargs. -/
theorem c1_order_by_always_forwarded (now : PyDateTime) (a : ListRunsArgs)
    (c : BackendCall) (h : listRunsBackendCall now a = .ok c) :
    c.order_by = some a.orderBy := by
  cases hb : buildFqlFilters now a with
  | error m => rw [listRunsBackendCall_error now a m hb] at h; cases h
  | ok fs => rw [listRunsBackendCall_eq now a fs hb] at h; cases h; rfl

/-- Witness for C1 at the failing input: a plain `runs list` invocation (all
flags at their defaults) produces a backend call that carries
`order_by = "-start_time"`. -/
theorem c1_order_by_always_forwarded_witness :
    ∃ c : BackendCall,
      listRunsBackendCall sampleNow {} = .ok c ∧ c.order_by = some "-start_time" :=
  ⟨_, rfl, c1_order_by_always_forwarded sampleNow {} _ rfl⟩

/-- C2: for every `runs list` invocation whose filter compilation succeeds,
the compiled predicate list decomposes as the ordered concatenation of the
raw-expression, tag, name, model, smart-flag, latency and time groups (each
active predicate contributed exactly once, in the order the source adds
them), and the compiled filter passed to the backend is: absent for an empty
list, the single predicate verbatim for a one-element list, and the
comma-joined conjunction `and(...)` for two or more. -/
theorem c2_compiled_filter_shape (now : PyDateTime) (a : ListRunsArgs)
    (fs : List String) (h : buildFqlFilters now a = .ok fs) :
    (∃ lat tim, latencyFilters a = .ok lat ∧ timeFilters now a = .ok tim ∧
        fs = rawFilters a ++ tagFilters a ++ nameFilters a ++ modelFilters a
               ++ smartFilters now a ++ lat ++ tim)
    ∧ (∀ c, listRunsBackendCall now a = .ok c → c.filter = combineFilters fs)
    ∧ (fs = [] → combineFilters fs = none)
    ∧ (∀ p, fs = [p] → combineFilters fs = some p)
    ∧ (2 ≤ fs.length →
        combineFilters fs = some ("and(" ++ String.intercalate ", " fs ++ ")")) := by
  have hb := buildFqlFilters_eq now a
  rw [h] at hb
  refine ⟨?_, ?_, ?_, ?_, ?_⟩
  · cases hl : latencyFilters a with
    | error e =>
      rw [hl] at hb
      exact absurd hb (by simp [Except.bind, bind])
    | ok lat =>
      cases ht : timeFilters now a with
      | error e =>
        rw [hl, ht] at hb
        exact absurd hb (by simp [Except.bind, bind, Except.map])
      | ok tim =>
        rw [hl, ht] at hb
        refine ⟨lat, tim, rfl, rfl, ?_⟩
        simpa [Except.bind, bind, Except.map] using hb
  · intro c hc
    rw [listRunsBackendCall_eq now a fs h] at hc
    cases hc
    rfl
  · intro hfs
    subst hfs
    rfl
  · intro p hfs
    subst hfs
    rfl
  · intro h2
    match fs, h2 with
    | x :: y :: ys, _ => rfl

/-- Witness for C2 at a concrete input: `--tag production --slow` compiles to
the two predicates in order and the combined filter is their conjunction. -/
theorem c2_compiled_filter_shape_witness :
    buildFqlFilters sampleNow { tag := ["production"], slow := true } =
        .ok ["has(tags, \"production\")", "gt(latency, \"5s\")"]
    ∧ combineFilters ["has(tags, \"production\")", "gt(latency, \"5s\")"] =
        some "and(has(tags, \"production\"), gt(latency, \"5s\"))" := by
  refine ⟨rfl, ?_⟩
  have hth := c2_compiled_filter_shape sampleNow { tag := ["production"], slow := true } _ rfl
  exact (hth.2.2.2.2 (by decide)).trans (by decide)

/-- C3: the claim says an active client-only filter makes the backend fetch
limit equal `clamp(requestedLimit * multiplier, floor, ceiling)` with an
explicit `--fetch` override; the source (`runs.py` line 245) instead passes
no limit at all (`api_limit = None`, an unbounded fetch) and has no `--fetch`
option.  Evaluated at the failing input `--name-regex test-.* --limit 5`:
the backend call carries `limit = None` where the claim (and the repository's
own tests, `tests/test_runs_list.py` lines 370-400) demand `100`. -/
theorem c3_regex_overfetch_is_unlimited :
    ∃ c : BackendCall,
      listRunsBackendCall sampleNow { nameRegex := some "test-.*", limit := 5 } = .ok c
        ∧ c.limit = none :=
  ⟨_, rfl, rfl⟩

/-- C6 counterexample: the claim as stated quantifies over every invocation
with a malformed duration string, but the empty string — which fails the
duration format — is treated by the source's truthiness test
(`if min_latency:` at `runs.py` line 203) as an absent flag: the command does
not abort and the backend call is made. -/
theorem c6_empty_duration_not_rejected :
    matchesDurationFormat "" = false
    ∧ ∃ c, listRunsBackendCall sampleNow { minLatency := some "" } = .ok c :=
  ⟨rfl, _, rfl⟩

/-- C6 (amended to nonempty duration values): every `runs list` invocation
with a nonempty malformed `--min-latency` (or `--max-latency`, the earlier
latency flag being absent, empty or valid) aborts with the duration
`BadParameter` naming the offending value before any backend call record is
produced; for valid values `--min-latency` contributes a `gt(latency, ...)`
predicate and `--max-latency` a `lt(latency, ...)` predicate to the compiled
filter, each value passed through unchanged, min before max. -/
theorem c6_duration_validation (now : PyDateTime) :
    (∀ (a : ListRunsArgs) (s : String), a.minLatency = some s → s ≠ "" →
        matchesDurationFormat s = false →
        listRunsBackendCall now a = .error (durationFormatError s))
    ∧ (∀ (a : ListRunsArgs) (s : String), a.maxLatency = some s → s ≠ "" →
        matchesDurationFormat s = false →
        (truthy a.minLatency = false
          ∨ ∃ t, a.minLatency = some t ∧ matchesDurationFormat t = true) →
        listRunsBackendCall now a = .error (durationFormatError s))
    ∧ (∀ (a : ListRunsArgs) (s : String) (fs : List String), a.minLatency = some s →
        matchesDurationFormat s = true → buildFqlFilters now a = .ok fs →
        "gt(latency, \"" ++ s ++ "\")" ∈ fs)
    ∧ (∀ (a : ListRunsArgs) (s : String) (fs : List String), a.maxLatency = some s →
        matchesDurationFormat s = true → buildFqlFilters now a = .ok fs →
        "lt(latency, \"" ++ s ++ "\")" ∈ fs)
    ∧ (∀ (a : ListRunsArgs) (s t : String), a.minLatency = some s →
        a.maxLatency = some t → matchesDurationFormat s = true →
        matchesDurationFormat t = true →
        latencyFilters a =
          .ok ["gt(latency, \"" ++ s ++ "\")", "lt(latency, \"" ++ t ++ "\")"]) := by
  have hformat_ne : ∀ u : String, matchesDurationFormat u = true → u ≠ "" := by
    intro u hu h0
    subst h0
    exact absurd hu (by decide)
  have hlat_ok : ∀ (a : ListRunsArgs) (s : String), a.minLatency = some s →
      matchesDurationFormat s = true → ∀ lat, latencyFilters a = .ok lat →
      "gt(latency, \"" ++ s ++ "\")" ∈ lat := by
    intro a s hmin hok lat hlat
    have hne := hformat_ne s hok
    have hps : parse_duration_to_seconds s = .ok s := by
      simp [parse_duration_to_seconds, hok]
    unfold latencyFilters at hlat
    cases hmx : truthy a.maxLatency with
    | false =>
      simp [hmin, hmx, hps, truthy_some_ne hne, bind,
        Except.bind, Except.map, pure, Except.pure] at hlat
      subst hlat
      simp
    | true =>
      cases hp : parse_duration_to_seconds (a.maxLatency.getD "") with
      | error e =>
        simp [hmin, hmx, hp, hps, truthy_some_ne hne, bind,
          Except.bind, Except.map, pure, Except.pure] at hlat
      | ok d =>
        simp [hmin, hmx, hp, hps, truthy_some_ne hne, bind,
          Except.bind, Except.map, pure, Except.pure] at hlat
        subst hlat
        simp
  have hlat_ok_max : ∀ (a : ListRunsArgs) (s : String), a.maxLatency = some s →
      matchesDurationFormat s = true → ∀ lat, latencyFilters a = .ok lat →
      "lt(latency, \"" ++ s ++ "\")" ∈ lat := by
    intro a s hmax hok lat hlat
    have hne := hformat_ne s hok
    have hps : parse_duration_to_seconds s = .ok s := by
      simp [parse_duration_to_seconds, hok]
    unfold latencyFilters at hlat
    cases hmn : truthy a.minLatency with
    | false =>
      simp [hmax, hmn, hps, truthy_some_ne hne, bind,
        Except.bind, Except.map, pure, Except.pure] at hlat
      subst hlat
      simp
    | true =>
      cases hp : parse_duration_to_seconds (a.minLatency.getD "") with
      | error e =>
        simp [hmax, hmn, hp, hps, truthy_some_ne hne, bind,
          Except.bind, Except.map, pure, Except.pure] at hlat
      | ok d =>
        simp [hmax, hmn, hp, hps, truthy_some_ne hne, bind,
          Except.bind, Except.map, pure, Except.pure] at hlat
        subst hlat
        simp
  have hmem : ∀ (a : ListRunsArgs) (fs : List String), buildFqlFilters now a = .ok fs →
      ∀ lat, latencyFilters a = .ok lat → ∀ p, p ∈ lat → p ∈ fs := by
    intro a fs hfs lat hlat p hp
    have hb := buildFqlFilters_eq now a
    rw [hfs, hlat] at hb
    cases ht : timeFilters now a with
    | error e =>
      rw [ht] at hb
      exact absurd hb (by simp [Except.bind, bind, Except.map])
    | ok tim =>
      rw [ht] at hb
      have : fs = rawFilters a ++ tagFilters a ++ nameFilters a ++ modelFilters a
          ++ smartFilters now a ++ lat ++ tim := by
        simpa [Except.bind, bind, Except.map] using hb
      subst this
      simp [hp]
  refine ⟨?_, ?_, ?_, ?_, ?_⟩
  · intro a s hmin hne hmf
    exact listRunsBackendCall_latency_error now a _
      (latencyFilters_min_error a s hmin hne hmf)
  · intro a s hmax hne hmf hminOk
    exact listRunsBackendCall_latency_error now a _
      (latencyFilters_max_error a s hmax hne hmf hminOk)
  · intro a s fs hmin hok hfs
    cases hl : latencyFilters a with
    | error e =>
      have := listRunsBackendCall_latency_error now a e hl
      have hb := buildFqlFilters_eq now a
      rw [hfs, hl] at hb
      exact absurd hb (by simp [Except.bind, bind])
    | ok lat =>
      exact hmem a fs hfs lat hl _ (hlat_ok a s hmin hok lat hl)
  · intro a s fs hmax hok hfs
    cases hl : latencyFilters a with
    | error e =>
      have hb := buildFqlFilters_eq now a
      rw [hfs, hl] at hb
      exact absurd hb (by simp [Except.bind, bind])
    | ok lat =>
      exact hmem a fs hfs lat hl _ (hlat_ok_max a s hmax hok lat hl)
  · intro a s t hmin hmax hoks hokt
    have hnes := hformat_ne s hoks
    have hnet := hformat_ne t hokt
    unfold latencyFilters
    simp [hmin, hmax, truthy_some_ne hnes, truthy_some_ne hnet,
      parse_duration_to_seconds, hoks, hokt, bind, Except.bind, Except.map, pure,
      Except.pure]

/-- Witness for C6: `--min-latency 5` aborts with the duration error naming
`5` before the backend call, and `--min-latency 2s --max-latency 10s`
contributes the two latency predicates with the values unchanged. -/
theorem c6_duration_validation_witness :
    listRunsBackendCall sampleNow { minLatency := some "5" } =
        .error (durationFormatError "5")
    ∧ latencyFilters { minLatency := some "2s", maxLatency := some "10s" } =
        .ok ["gt(latency, \"2s\")", "lt(latency, \"10s\")"] :=
  ⟨(c6_duration_validation sampleNow).1 { minLatency := some "5" } "5" rfl
      (by decide) (by decide),
   (c6_duration_validation sampleNow).2.2.2.2 { minLatency := some "2s", maxLatency := some "10s" }
      "2s" "10s" rfl rfl (by decide) (by decide)⟩

/-- C4: a backend authentication exception during a listing call in machine
mode exits non-zero and writes exactly one JSON object - nothing before or
after it on the output channel - whose `error` field is
`AuthenticationError`. -/
theorem c4_auth_error_machine_json (msg : String) :
    (runListingMachineMode (.error (.authError msg))).1 ≠ 0
    ∧ (runListingMachineMode (.error (.authError msg))).2 =
        [renderErrorJson (classifyException (.authError msg))]
    ∧ (classifyException (.authError msg)).kind = "AuthenticationError"
    ∧ (runListingMachineMode (.error (.authError msg))).2.length = 1 := by
  refine ⟨?_, rfl, rfl, rfl⟩
  exact Nat.one_ne_zero

/-- C5: with a client-only regex filter active, the pipeline of `runs list`
equals regex-filter, then sort (when a sort spec is active in table mode)
over the full filtered set, with the display limit taken last: the result is
the `limit`-prefix of the sorted filtered set, its length never exceeds the
display limit, and every returned record comes from the regex-filtered set. -/
theorem c5_display_limit_applied_last (search : String → String → Bool)
    (a : ListRunsArgs) (jsonMode : Bool) (fetched : List RunRecord)
    (h : truthy a.nameRegex = true) :
    listRunsPostFetch search a jsonMode fetched =
      (if truthy a.sortBy && !jsonMode then
          (sort_items SortKey.le
            (apply_regex_filter search fetched a.nameRegex (fun r => r.name))
            (a.sortBy.getD "") runsSortKeyMap).1
        else apply_regex_filter search fetched a.nameRegex (fun r => r.name)).take a.limit
    ∧ (listRunsPostFetch search a jsonMode fetched).length ≤ a.limit
    ∧ ∀ r ∈ listRunsPostFetch search a jsonMode fetched,
        r ∈ apply_regex_filter search fetched a.nameRegex (fun r => r.name) := by
  have h1 : listRunsPostFetch search a jsonMode fetched =
      (if truthy a.sortBy && !jsonMode then
          (sort_items SortKey.le
            (apply_regex_filter search fetched a.nameRegex (fun r => r.name))
            (a.sortBy.getD "") runsSortKeyMap).1
        else apply_regex_filter search fetched a.nameRegex (fun r => r.name)).take a.limit := by
    unfold listRunsPostFetch apply_client_side_limit
    simp [h]
  refine ⟨h1, ?_, ?_⟩
  · rw [h1, List.length_take]
    exact Nat.min_le_left _ _
  · intro r hr
    rw [h1] at hr
    have hr2 := List.mem_of_mem_take hr
    cases hb : truthy a.sortBy && !jsonMode with
    | false =>
      simpa [hb] using hr2
    | true =>
      rw [hb] at hr2
      simp only [if_true] at hr2
      exact (mem_sort_items_fst SortKey.le _ _ _ r).mp hr2

/-- Witness for C5 at a concrete input: three fetched records, a regex
matching two of them, name sorting and a display limit of one. -/
theorem c5_display_limit_applied_last_witness :
    truthy (some "^a") = true
    ∧ (listRunsPostFetch (fun _ s => s.startsWith "a")
        { nameRegex := some "^a", sortBy := some "name", limit := 1 } false
        [{ id := "1", name := some "beta" }, { id := "2", name := some "alpha" },
         { id := "3", name := some "a2" }]).length ≤ 1 :=
  ⟨rfl,
    (c5_display_limit_applied_last (fun _ s => s.startsWith "a")
      { nameRegex := some "^a", sortBy := some "name", limit := 1 } false
      [{ id := "1", name := some "beta" }, { id := "2", name := some "alpha" },
       { id := "3", name := some "a2" }] rfl).2.1⟩

/-- C7: `--since` tries the ISO-8601 parse first (a trailing literal `Z`
replaced by the `+00:00` UTC offset), falls back to the relative-duration
parse, and fails with the `--since` format error when both fail; the boundary
value `2024-01-14T10:00:00Z` parses as UTC and yields a greater-than
start-time predicate containing `2024-01-14T10:00:00`. -/
theorem c7_since_parse_cascade :
    (∀ (now : PyDateTime) (s : String) (dt : PyDateTime),
        pyFromIsoformat (pyReplace s "Z" "+00:00") = .ok dt →
        sinceTimestamp now s = .ok dt)
    ∧ (∀ (now : PyDateTime) (s m : String) (dt : PyDateTime),
        pyFromIsoformat (pyReplace s "Z" "+00:00") = .error m →
        parse_relative_time now s = .ok dt →
        sinceTimestamp now s = .ok dt)
    ∧ (∀ (now : PyDateTime) (s m m2 : String),
        pyFromIsoformat (pyReplace s "Z" "+00:00") = .error m →
        parse_relative_time now s = .error m2 →
        sinceTimestamp now s = .error (sinceFormatError s))
    ∧ (∀ now : PyDateTime,
        sinceTimestamp now "2024-01-14T10:00:00Z" =
          .ok { year := 2024, month := 1, day := 14, hour := 10,
                tzOffsetSeconds := some 0 }
        ∧ timeFilters now { since := some "2024-01-14T10:00:00Z" } =
          .ok ["gt(start_time, \"2024-01-14T10:00:00" ++ "+00:00\")"]) := by
  refine ⟨?_, ?_, ?_, ?_⟩
  · intro now s dt h
    unfold sinceTimestamp
    rw [h]
  · intro now s m dt h hr
    unfold sinceTimestamp
    rw [h, hr]
  · intro now s m m2 h hr
    unfold sinceTimestamp
    rw [h, hr]
  · intro now
    exact ⟨rfl, rfl⟩

/-- Witness for C7: the cascade applied at concrete inputs - the boundary
ISO timestamp takes the ISO branch, and a string failing both parses yields
the `--since` format error. -/
theorem c7_since_parse_cascade_witness :
    sinceTimestamp sampleNow "2024-01-14T10:00:00Z" =
        .ok { year := 2024, month := 1, day := 14, hour := 10,
              tzOffsetSeconds := some 0 }
    ∧ sinceTimestamp sampleNow "invalid" = .error (sinceFormatError "invalid") :=
  ⟨c7_since_parse_cascade.1 sampleNow "2024-01-14T10:00:00Z" _ rfl,
   c7_since_parse_cascade.2.2.1 sampleNow "invalid" _ _ rfl rfl⟩

/-- C8: a conflict exception on `projects create` is caught and replaced by
the already-exists console warning - a human message, not a JSON error
object, in machine mode too - with a normal exit code 0, and conflict is the
only exception kind for which the command's exit code is 0. -/
theorem c8_conflict_create_nonfatal :
    (∀ (jsonMode : Bool) (name m : String),
        create_project jsonMode name (.error (.conflictError m)) =
          .ok (0, [.human ("[yellow]Project " ++ name ++ " already exists.[/yellow]")]))
    ∧ (∀ (jsonMode : Bool) (name : String) (e : BackendException),
        cliExitCode (create_project jsonMode name (.error e)) = 0
          ↔ ∃ m, e = .conflictError m) := by
  constructor
  · intro jsonMode name m
    rfl
  · intro jsonMode name e
    cases e <;> simp [create_project, cliExitCode]

/-- C9 counterexample: the claim quantifies over every sort specification
whose stripped field name is unknown, but the empty specification - whose
stripped field name is the empty string, absent from the key map - is
returned through the `if not sort_by` early exit (`utils.py` line 70) with
the input unchanged and no warning printed. -/
theorem c9_empty_spec_returns_without_warning :
    (List.lookup (stripLeadingDashes "")
        [("name", fun n : Nat => n)]).isNone = true
    ∧ sort_items Nat.ble [1, 2] "" [("name", fun n : Nat => n)] = ([1, 2], none) :=
  ⟨rfl, rfl⟩

/-- C9 (amended to nonempty sort specifications): for every list and every
nonempty sort specification whose field name, after stripping leading
descending markers, is not in the key map, `sort_items` returns the input
sequence unchanged together with the unknown-field warning; the function is
total, so no call raises. -/
theorem c9_unknown_field_sort_unchanged {α κ : Type} (le : κ → κ → Bool)
    (items : List α) (sortBy : String) (m : List (String × (α → κ)))
    (hne : sortBy ≠ "") (hunk : m.lookup (stripLeadingDashes sortBy) = none) :
    sort_items le items sortBy m =
      (items, some (unknownFieldWarning (stripLeadingDashes sortBy) (m.map Prod.fst))) := by
  unfold sort_items
  simp [hne, hunk]

/-- Witness for C9: sorting by the unknown field `latency2` returns the list
unchanged with the warning naming the available fields. -/
theorem c9_unknown_field_sort_unchanged_witness :
    ("latency2" ≠ ""
      ∧ (([("name", fun n : Nat => n)] : List (String × (Nat → Nat))).lookup
          (stripLeadingDashes "latency2")) = none)
    ∧ sort_items Nat.ble [3, 1] "latency2" [("name", fun n : Nat => n)] =
        ([3, 1], some (unknownFieldWarning "latency2" ["name"])) :=
  ⟨⟨by decide, rfl⟩,
    c9_unknown_field_sort_unchanged Nat.ble [3, 1] "latency2"
      [("name", fun n : Nat => n)] (by decide) rfl⟩

/-- C10: an empty result set renders as the distinct no-results indicator in
table mode (never an empty table, which appears only for nonempty results),
while json, yaml and csv each emit their encoding of the empty collection:
the JSON empty array `[]`, the YAML empty flow sequence `[]`, and zero CSV
records. -/
theorem c10_empty_result_rendering :
    (∀ project : String, renderRunsTable project [] = .noResults "No runs found.")
    ∧ (∀ (project : String) (runs : List RunRecord), runs ≠ [] →
        renderRunsTable project runs =
          .table ("Runs (" ++ project ++ ")") (runs.map runsTableRow))
    ∧ (∀ fields, output_formatted_data [] "json" fields = .ok ["[]"])
    ∧ (∀ fields, output_formatted_data [] "yaml" fields = .ok ["[]\n"])
    ∧ (∀ fields, output_formatted_data [] "csv" fields = .ok [])
    ∧ jsonDumps [] = "[]" ∧ yamlDump [] = "[]\n" := by
  refine ⟨fun _ => rfl, ?_, fun _ => rfl, fun _ => rfl, fun _ => rfl, rfl, rfl⟩
  intro project runs hne
  cases runs with
  | nil => exact absurd rfl hne
  | cons x xs => rfl

/-- Witness for C10: a singleton result set renders as a table, not the
no-results indicator. -/
theorem c10_empty_result_rendering_witness :
    (([{ id := "1" }] : List RunRecord) ≠ [])
    ∧ renderRunsTable "default" [{ id := "1" }] =
        .table "Runs (default)" [["1", "Unknown", "[yellow]None[/yellow]", "-"]] := by
  refine ⟨by simp, ?_⟩
  exact (c10_empty_result_rendering.2.1 "default" [{ id := "1" }] (by simp)).trans
    (by decide)

end LangsmithCli
